import Mathlib

/-!
Theme toggle (light/dark): embedding of `theme.js`

The script `apps/interface/static/interface/js/theme.js` is embedded as pure
state-passing functions.

* `localStorage` is a list of key/value string pairs with `getItem` / `setItem`.
  `setItem` can throw in a browser (quota exceeded, storage disabled); whether a
  given call succeeds is decided by the environment, so the click handler takes
  the outcome of its one write as a Boolean argument.
* `document.querySelector` yields an element or `null`: an `Option Element`.
  The three selectors are taken to denote three different elements (the page
  contract), so each element is held by value.
* A browser can deny a page access to `localStorage` altogether; every use of it
  then throws a `SecurityError`. The script touches it first on line 8, so a
  denied store halts the load there, before `currentTheme` is bound.
* A JavaScript statement that throws stops the running script or handler and
  leaves every earlier effect in place: display-sync, the click handler and the
  statements after line 8 return the state they reached together with the
  uncaught error, if any.
-/

namespace Theme

/-- Errors the script can raise and never catches. -/
inductive JsError where
  /-- Property access on `null` (a selector that matched nothing). -/
  | typeError
  /-- A `localStorage.setItem` call rejected by the browser. -/
  | quotaExceeded
  /-- Access to `localStorage` denied by the browser. -/
  | securityError
  deriving DecidableEq, Repr

/-- A DOM element, reduced to the one property the script writes: `style.display`. -/
structure Element where
  display : String
  deriving DecidableEq, Repr

/-- The browser key/value store `localStorage`. -/
abbrev Storage := List (String × String)

/-- Value of `localStorage.getItem(k)`: the stored string, or `null` (`none`). -/
def Storage.getItem : Storage → String → Option String
  | [], _ => none
  | (k', v) :: rest, k => if k' = k then some v else Storage.getItem rest k

/-- Effect of a successful `localStorage.setItem(k, v)`. -/
def Storage.setItem : Storage → String → String → Storage
  | [], k, v => [(k, v)]
  | (k', v') :: rest, k, v =>
    if k' = k then (k, v) :: rest else (k', v') :: Storage.setItem rest k v

/-- The page and browser state the script finds when it is loaded. -/
structure Page where
  /-- The `data-theme` attribute of `document.documentElement`, if set. -/
  dataTheme : Option String
  /-- Result of `document.querySelector('.theme-btn')`. -/
  themeBtn : Option Element
  /-- Result of `document.querySelector('.light-mode')`. -/
  lightMode : Option Element
  /-- Result of `document.querySelector('.dark-mode')`. -/
  darkMode : Option Element
  localStorage : Storage
  /-- Whether the browser denies this page access to `localStorage`. -/
  storageDenied : Bool
  deriving DecidableEq, Repr

/-- Everything the script reads or writes once `currentTheme` is bound. -/
structure ThemeState where
  /-- The module-level variable `currentTheme`. -/
  currentTheme : String
  /-- The `data-theme` attribute of the root element `html`. -/
  dataTheme : Option String
  themeBtn : Option Element
  lightMode : Option Element
  darkMode : Option Element
  localStorage : Storage
  /-- Whether the click listener has been added to `themeBtn`. -/
  clickHandler : Bool
  deriving DecidableEq, Repr

/-- State reached by a run of the script or of the handler, and the uncaught
error that stopped it, if any. -/
structure Outcome where
  state : ThemeState
  error : Option JsError
  deriving DecidableEq, Repr

/-- The JavaScript expression `a || d` for `a` a string or `null`: `null` and the
empty string are falsy. -/
def jsOr (a : Option String) (d : String) : String :=
  match a with
  | none => d
  | some v => if v = "" then d else v

/-- The function `updateDisplay` (lines 20-28). -/
def updateDisplay (s : ThemeState) : Outcome :=
  if s.currentTheme = "dark" then
    match s.lightMode with
    | none => ⟨s, some JsError.typeError⟩
    | some l =>
      let s1 := { s with lightMode := some { l with display := "none" } }
      match s1.darkMode with
      | none => ⟨s1, some JsError.typeError⟩
      | some d => ⟨{ s1 with darkMode := some { d with display := "inline" } }, none⟩
  else
    match s.lightMode with
    | none => ⟨s, some JsError.typeError⟩
    | some l =>
      let s1 := { s with lightMode := some { l with display := "inline" } }
      match s1.darkMode with
      | none => ⟨s1, some JsError.typeError⟩
      | some d => ⟨{ s1 with darkMode := some { d with display := "none" } }, none⟩

/-- How the one run of the script at load ended. -/
inductive Load where
  /-- Line 8 threw a `SecurityError`: nothing is bound, the page is untouched. -/
  | denied
  /-- Line 8 bound `currentTheme` and the statements after it ran to this outcome. -/
  | ran (o : Outcome)
  deriving DecidableEq, Repr

/-- The uncaught error a load ended in, if any. -/
def Load.error : Load → Option JsError
  | Load.denied => some JsError.securityError
  | Load.ran o => o.error

/-- The state of the script after a load; there is none when line 8 threw. -/
def Load.state? : Load → Option ThemeState
  | Load.denied => none
  | Load.ran o => some o.state

/-- Lines 9-18 of the script, run once line 8 has bound `currentTheme`. -/
def initFrom (p : Page) (currentTheme : String) : Outcome :=
  let s : ThemeState :=
    { currentTheme := currentTheme
      dataTheme := some currentTheme
      themeBtn := p.themeBtn
      lightMode := p.lightMode
      darkMode := p.darkMode
      localStorage := p.localStorage
      clickHandler := false }
  let r := updateDisplay s
  match r.error with
  | some e => ⟨r.state, some e⟩
  | none =>
    match r.state.themeBtn with
    | none => ⟨r.state, some JsError.typeError⟩
    | some _ => ⟨{ r.state with clickHandler := true }, none⟩

/-- The top-level statements of the script (lines 2-18), run once at load. Line 8
reads `localStorage.getItem('theme') || 'light'`: it throws when access to the
store is denied, and binds `currentTheme` otherwise. -/
def init (p : Page) : Load :=
  if p.storageDenied then Load.denied
  else Load.ran (initFrom p (jsOr (p.localStorage.getItem "theme") "light"))

/-- The click handler (lines 13-18); `writeOk` says whether its `setItem` call
succeeds. -/
def onClick (s : ThemeState) (writeOk : Bool) : Outcome :=
  let s1 := { s with currentTheme := if s.currentTheme = "light" then "dark" else "light" }
  let s2 := { s1 with dataTheme := some s1.currentTheme }
  if writeOk then
    updateDisplay { s2 with localStorage := s2.localStorage.setItem "theme" s2.currentTheme }
  else
    ⟨s2, some JsError.quotaExceeded⟩

/-- A click on the control: runs the handler if it has been registered. An error
in the handler is reported and the page lives on in the state reached. -/
def click (s : ThemeState) (writeOk : Bool) : ThemeState :=
  if s.clickHandler then (onClick s writeOk).state else s

/-- A sequence of clicks, one write outcome per click. -/
def clicks (s : ThemeState) : List Bool → ThemeState
  | [] => s
  | w :: ws => clicks (click s w) ws

/-- Page load followed by clicks. A script that halted at load has registered no
handler, so there is no state "after initialization" to observe. -/
def run (p : Page) (ws : List Bool) : Option ThemeState :=
  match (init p).error, (init p).state? with
  | none, some s => some (clicks s ws)
  | _, _ => none

/-- The `style.display` of a looked-up element, when the element exists. -/
def display? (e : Option Element) : Option String :=
  e.map Element.display

/-- A page with the control and both icons, no inline style, and the given store,
which the browser lets it use. -/
def pageWith (store : Storage) : Page :=
  { dataTheme := none
    themeBtn := some ⟨""⟩
    lightMode := some ⟨""⟩
    darkMode := some ⟨""⟩
    localStorage := store
    storageDenied := false }

/-- The same page in a browser that denies it access to `localStorage`. -/
def deniedPage : Page :=
  { pageWith [] with storageDenied := true }

/-- A loaded page whose handler is registered and whose icons exist, exactly one
of them shown: the shape of every state the script can be observed in. -/
def Ready (s : ThemeState) : Prop :=
  s.clickHandler = true ∧
  ((display? s.lightMode = some "inline" ∧ display? s.darkMode = some "none") ∨
   (display? s.lightMode = some "none" ∧ display? s.darkMode = some "inline"))

/-- The icons show the in-memory theme: what `updateDisplay` establishes. -/
def Synced (s : ThemeState) : Prop :=
  display? s.lightMode = some (if s.currentTheme = "dark" then "none" else "inline") ∧
  display? s.darkMode = some (if s.currentTheme = "dark" then "inline" else "none")

/-- The state a loaded page `pageWith store` is in when its theme is `light`. -/
def lightState (store : Storage) : ThemeState :=
  { currentTheme := "light"
    dataTheme := some "light"
    themeBtn := some ⟨""⟩
    lightMode := some ⟨"inline"⟩
    darkMode := some ⟨"none"⟩
    localStorage := store
    clickHandler := true }

/-- The state a loaded page `pageWith store` is in when its theme is `dark`. -/
def darkState (store : Storage) : ThemeState :=
  { currentTheme := "dark"
    dataTheme := some "dark"
    themeBtn := some ⟨""⟩
    lightMode := some ⟨"none"⟩
    darkMode := some ⟨"inline"⟩
    localStorage := store
    clickHandler := true }

/-- The state `lightState store` is left in by a click whose write fails: theme
and attribute are `dark`, the icons still show `light`. -/
def staleState (store : Storage) : ThemeState :=
  { lightState store with currentTheme := "dark", dataTheme := some "dark" }

example : run (pageWith []) [true] = some
    { currentTheme := "dark", dataTheme := some "dark", themeBtn := some ⟨""⟩,
      lightMode := some ⟨"none"⟩, darkMode := some ⟨"inline"⟩,
      localStorage := [("theme", "dark")], clickHandler := true } := by decide

/-! ## Storage and display-sync lemmas -/

theorem Storage.getItem_setItem (st : Storage) (k v : String) :
    (st.setItem k v).getItem k = some v := by
  induction st with
  | nil => simp [Storage.setItem, Storage.getItem]
  | cons kv rest ih =>
    obtain ⟨k', v'⟩ := kv
    by_cases h : k' = k
    · simp [Storage.setItem, Storage.getItem, h]
    · simp [Storage.setItem, Storage.getItem, h, ih]

theorem updateDisplay_currentTheme (s : ThemeState) :
    (updateDisplay s).state.currentTheme = s.currentTheme := by
  unfold updateDisplay
  split <;> cases s.lightMode <;> cases s.darkMode <;> rfl

theorem updateDisplay_dataTheme (s : ThemeState) :
    (updateDisplay s).state.dataTheme = s.dataTheme := by
  unfold updateDisplay
  split <;> cases s.lightMode <;> cases s.darkMode <;> rfl

theorem updateDisplay_localStorage (s : ThemeState) :
    (updateDisplay s).state.localStorage = s.localStorage := by
  unfold updateDisplay
  split <;> cases s.lightMode <;> cases s.darkMode <;> rfl

theorem updateDisplay_clickHandler (s : ThemeState) :
    (updateDisplay s).state.clickHandler = s.clickHandler := by
  unfold updateDisplay
  split <;> cases s.lightMode <;> cases s.darkMode <;> rfl

theorem updateDisplay_themeBtn (s : ThemeState) :
    (updateDisplay s).state.themeBtn = s.themeBtn := by
  unfold updateDisplay
  split <;> cases s.lightMode <;> cases s.darkMode <;> rfl

/-- With both icons present display-sync completes and shows the icon of the
current theme only. -/
theorem updateDisplay_present (s : ThemeState) (hl : s.lightMode.isSome)
    (hd : s.darkMode.isSome) :
    (updateDisplay s).error = none ∧
    display? (updateDisplay s).state.lightMode
      = some (if s.currentTheme = "dark" then "none" else "inline") ∧
    display? (updateDisplay s).state.darkMode
      = some (if s.currentTheme = "dark" then "inline" else "none") := by
  obtain ⟨l, hl'⟩ := Option.isSome_iff_exists.mp hl
  obtain ⟨d, hd'⟩ := Option.isSome_iff_exists.mp hd
  unfold updateDisplay
  split <;> simp [hl', hd', display?, *]

/-- Display-sync fails exactly when an icon is missing. -/
theorem updateDisplay_error_iff (s : ThemeState) :
    (updateDisplay s).error ≠ none ↔ (s.lightMode = none ∨ s.darkMode = none) := by
  unfold updateDisplay
  split <;> cases s.lightMode <;> cases s.darkMode <;> simp

/-! ## The click handler, field by field -/

theorem onClick_currentTheme (s : ThemeState) (w : Bool) :
    (onClick s w).state.currentTheme
      = if s.currentTheme = "light" then "dark" else "light" := by
  cases w
  · rfl
  · simp only [onClick, if_true, updateDisplay_currentTheme]

theorem onClick_dataTheme (s : ThemeState) (w : Bool) :
    (onClick s w).state.dataTheme
      = some (if s.currentTheme = "light" then "dark" else "light") := by
  cases w
  · rfl
  · simp only [onClick, if_true, updateDisplay_dataTheme]

theorem onClick_clickHandler (s : ThemeState) (w : Bool) :
    (onClick s w).state.clickHandler = s.clickHandler := by
  cases w
  · rfl
  · simp only [onClick, if_true, updateDisplay_clickHandler]

theorem onClick_localStorage_ok (s : ThemeState) :
    (onClick s true).state.localStorage
      = s.localStorage.setItem "theme" (if s.currentTheme = "light" then "dark" else "light") := by
  simp only [onClick, if_true, updateDisplay_localStorage]

theorem onClick_getItem_ok (s : ThemeState) :
    (onClick s true).state.localStorage.getItem "theme"
      = some (if s.currentTheme = "light" then "dark" else "light") := by
  rw [onClick_localStorage_ok, Storage.getItem_setItem]

theorem flip_flip (T : String) (hT : T = "light" ∨ T = "dark") :
    (if (if T = "light" then "dark" else "light") = "light" then "dark" else "light") = T := by
  rcases hT with h | h <;> subst h <;> decide

theorem flip_range (T : String) :
    (if T = "light" then "dark" else "light") = "light" ∨
    (if T = "light" then "dark" else "light") = "dark" := by
  by_cases h : T = "light" <;> simp [h]

/-! ## Initialization -/

theorem initFrom_currentTheme (p : Page) (t : String) :
    (initFrom p t).state.currentTheme = t := by
  simp only [initFrom]
  split
  · exact updateDisplay_currentTheme _
  · split
    · exact updateDisplay_currentTheme _
    · exact updateDisplay_currentTheme _

theorem initFrom_dataTheme (p : Page) (t : String) :
    (initFrom p t).state.dataTheme = some t := by
  simp only [initFrom]
  split
  · exact updateDisplay_dataTheme _
  · split
    · exact updateDisplay_dataTheme _
    · exact updateDisplay_dataTheme _

theorem initFrom_localStorage (p : Page) (t : String) :
    (initFrom p t).state.localStorage = p.localStorage := by
  simp only [initFrom]
  split
  · exact updateDisplay_localStorage _
  · split
    · exact updateDisplay_localStorage _
    · exact updateDisplay_localStorage _

/-- Past line 8 the load completes exactly when the three lookups all succeed. -/
theorem initFrom_error_none_iff (p : Page) (t : String) :
    (initFrom p t).error = none ↔
      (p.themeBtn.isSome ∧ p.lightMode.isSome ∧ p.darkMode.isSome) := by
  simp only [initFrom, updateDisplay]
  cases p.themeBtn <;> cases p.lightMode <;> cases p.darkMode <;>
    by_cases h : t = "dark" <;> simp [h]

/-- Past line 8 the only error is the type error, and it leaves no handler. -/
theorem initFrom_error (p : Page) (t : String) (h : (initFrom p t).error ≠ none) :
    (initFrom p t).error = some JsError.typeError ∧
    (initFrom p t).state.clickHandler = false := by
  revert h
  simp only [initFrom, updateDisplay]
  cases p.themeBtn <;> cases p.lightMode <;> cases p.darkMode <;>
    by_cases h : t = "dark" <;> simp [h]

/-- A completed load leaves the handler registered and the icons showing the
resolved theme. -/
theorem initFrom_ready (p : Page) (t : String) (h : (initFrom p t).error = none) :
    (initFrom p t).state.clickHandler = true ∧ Synced (initFrom p t).state := by
  have hp := (initFrom_error_none_iff p t).mp h
  obtain ⟨b, hb⟩ := Option.isSome_iff_exists.mp hp.1
  obtain ⟨l, hl⟩ := Option.isSome_iff_exists.mp hp.2.1
  obtain ⟨d, hd⟩ := Option.isSome_iff_exists.mp hp.2.2
  simp only [initFrom, updateDisplay, Synced, hb, hl, hd]
  by_cases h : t = "dark" <;> simp [h, display?]

theorem init_allowed (p : Page) (h : p.storageDenied = false) :
    init p = Load.ran (initFrom p (jsOr (p.localStorage.getItem "theme") "light")) := by
  simp [init, h]

theorem init_denied (p : Page) (h : p.storageDenied = true) : init p = Load.denied := by
  simp [init, h]

theorem Synced.ready {s : ThemeState} (hc : s.clickHandler = true) (h : Synced s) :
    Ready s := by
  refine ⟨hc, ?_⟩
  unfold Synced at h
  by_cases ht : s.currentTheme = "dark"
  · right; simpa [ht] using h
  · left; simpa [ht] using h

theorem display?_isSome {e : Option Element} {x : String} (h : display? e = some x) :
    e.isSome := by
  cases e with
  | none => simp [display?] at h
  | some _ => rfl

theorem Ready.lightMode {s : ThemeState} (h : Ready s) : s.lightMode.isSome := by
  rcases h.2 with h | h
  · exact display?_isSome h.1
  · exact display?_isSome h.1

theorem Ready.darkMode {s : ThemeState} (h : Ready s) : s.darkMode.isSome := by
  rcases h.2 with h | h
  · exact display?_isSome h.2
  · exact display?_isSome h.2

/-! ## Clicks on a loaded page -/

/-- On a loaded page a toggle whose write succeeds completes and leaves the icons
showing the new theme. -/
theorem onClick_ok_synced (s : ThemeState) (h : Ready s) :
    (onClick s true).error = none ∧ Synced (onClick s true).state := by
  have hp := updateDisplay_present
    { s with
      currentTheme := if s.currentTheme = "light" then "dark" else "light"
      dataTheme := some (if s.currentTheme = "light" then "dark" else "light")
      localStorage := s.localStorage.setItem "theme"
        (if s.currentTheme = "light" then "dark" else "light") }
    h.lightMode h.darkMode
  refine ⟨hp.1, ?_⟩
  unfold Synced
  rw [onClick_currentTheme]
  exact hp.2

theorem onClick_ready (s : ThemeState) (w : Bool) (h : Ready s) :
    Ready (onClick s w).state := by
  cases w
  · exact ⟨h.1, h.2⟩
  · exact (onClick_ok_synced s h).2.ready (by rw [onClick_clickHandler]; exact h.1)

theorem click_ready (s : ThemeState) (w : Bool) (h : Ready s) : Ready (click s w) := by
  unfold click
  rw [if_pos h.1]
  exact onClick_ready s w h

theorem clicks_ready (ws : List Bool) (s : ThemeState) (h : Ready s) :
    Ready (clicks s ws) := by
  induction ws generalizing s with
  | nil => exact h
  | cons w ws ih => exact ih _ (click_ready s w h)

theorem clicks_append (s : ThemeState) (ws vs : List Bool) :
    clicks s (ws ++ vs) = clicks (clicks s ws) vs := by
  induction ws generalizing s with
  | nil => rfl
  | cons w ws ih => exact ih _

theorem run_eq_some {p : Page} {ws : List Bool} {s : ThemeState} (h : run p ws = some s) :
    p.storageDenied = false ∧
    (initFrom p (jsOr (p.localStorage.getItem "theme") "light")).error = none ∧
    s = clicks (initFrom p (jsOr (p.localStorage.getItem "theme") "light")).state ws := by
  cases hd : p.storageDenied
  · rw [run, init_allowed p hd] at h
    simp only [Load.error, Load.state?] at h
    split at h
    · rename_i s0 he hs
      cases hs
      exact ⟨rfl, he, (Option.some.inj h).symm⟩
    · exact absurd h (by simp)
  · rw [run, init_denied p hd] at h
    simp [Load.error, Load.state?] at h

theorem run_ready {p : Page} {ws : List Bool} {s : ThemeState} (h : run p ws = some s) :
    Ready s := by
  obtain ⟨_, he, rfl⟩ := run_eq_some h
  have hi := initFrom_ready p _ he
  exact clicks_ready ws _ (hi.2.ready hi.1)

/-! ## Toggle: round trip, persistence, range -/

/-- C1, as stated, fails: from theme `light` on a loaded page, a toggle whose
write succeeds followed by a toggle whose write fails restores the in-memory
theme and the attribute to `light`, while the persisted value stays `dark`. -/
theorem round_trip_not_persisted :
    run (pageWith []) [] = some (lightState []) ∧
    run (pageWith []) [true, false]
      = some (onClick (onClick (lightState []) true).state false).state ∧
    (lightState []).currentTheme = "light" ∧
    (onClick (onClick (lightState []) true).state false).state.currentTheme = "light" ∧
    (onClick (onClick (lightState []) true).state false).state.dataTheme = some "light" ∧
    (onClick (onClick (lightState []) true).state false).state.localStorage.getItem "theme"
      = some "dark" ∧
    ¬ ((onClick (onClick (lightState []) true).state false).state.localStorage.getItem
        "theme" = some "light") := by
  decide

/-- C1 (amended): from an in-memory theme `T` that is `light` or `dark`, one
toggle (the click handler), whatever the outcome of its storage write, yields
the opposite theme, and two consecutive toggles, whatever the outcomes of their
writes, leave the in-memory theme and the root `data-theme` attribute equal to
`T`; the value persisted under key `theme` is `T` as well when the write of the
second toggle succeeds. -/
theorem toggle_round_trip (s : ThemeState) (T : String) (w1 w2 : Bool)
    (hT : T = "light" ∨ T = "dark") (hs : s.currentTheme = T) :
    (onClick s w1).state.currentTheme = (if T = "light" then "dark" else "light") ∧
    (onClick s w1).state.currentTheme ≠ T ∧
    (onClick (onClick s w1).state w2).state.currentTheme = T ∧
    (onClick (onClick s w1).state w2).state.dataTheme = some T ∧
    (w2 = true →
      (onClick (onClick s w1).state w2).state.localStorage.getItem "theme" = some T) := by
  have h1 : (onClick s w1).state.currentTheme
      = (if T = "light" then "dark" else "light") := by
    rw [onClick_currentTheme, hs]
  refine ⟨h1, ?_, ?_, ?_, ?_⟩
  · rw [h1]
    rcases hT with h | h <;> subst h <;> decide
  · rw [onClick_currentTheme, h1]
    exact flip_flip T hT
  · rw [onClick_dataTheme, h1, flip_flip T hT]
  · intro hw
    subst hw
    rw [onClick_getItem_ok, h1, flip_flip T hT]

theorem toggle_round_trip_witness :
    ("light" = "light" ∨ "light" = "dark") ∧
    (lightState []).currentTheme = "light" ∧
    (onClick (lightState []) false).state.currentTheme = "dark" ∧
    (onClick (onClick (lightState []) false).state true).state.currentTheme = "light" ∧
    (onClick (onClick (lightState []) false).state true).state.dataTheme = some "light" ∧
    (onClick (onClick (lightState []) false).state true).state.localStorage.getItem
      "theme" = some "light" :=
  ⟨Or.inl rfl, by decide,
   (toggle_round_trip (lightState []) "light" false true (Or.inl rfl) (by decide)).1,
   (toggle_round_trip (lightState []) "light" false true (Or.inl rfl) (by decide)).2.2.1,
   (toggle_round_trip (lightState []) "light" false true (Or.inl rfl) (by decide)).2.2.2.1,
   (toggle_round_trip (lightState []) "light" false true (Or.inl rfl) (by decide)).2.2.2.2
     rfl⟩

/-- C4: after a toggle whose storage write succeeds, the value persisted under key
`theme` is the new in-memory theme, and so is the root `data-theme` attribute. -/
theorem toggle_persists (s : ThemeState) :
    (onClick s true).state.localStorage.getItem "theme"
      = some (onClick s true).state.currentTheme ∧
    (onClick s true).state.dataTheme = some (onClick s true).state.currentTheme := by
  rw [onClick_getItem_ok, onClick_dataTheme, onClick_currentTheme]
  exact ⟨rfl, rfl⟩

/-- C10: the handler sets the theme to `dark` if it was exactly `light` and to
`light` otherwise, whatever string it was; initialization writes nothing to the
store and a toggle either leaves the store alone (failed write) or has stored
`light` or `dark` under key `theme`; and after at least one click on a loaded page
the in-memory theme is `light` or `dark`. -/
theorem toggle_range :
    (∀ (s : ThemeState) (w : Bool), (onClick s w).state.currentTheme
        = if s.currentTheme = "light" then "dark" else "light") ∧
    (∀ (p : Page) (s : ThemeState), (init p).state? = some s →
        s.localStorage = p.localStorage) ∧
    (∀ (s : ThemeState) (w : Bool),
        (onClick s w).state.localStorage = s.localStorage ∨
        (onClick s w).state.localStorage = s.localStorage.setItem "theme" "light" ∨
        (onClick s w).state.localStorage = s.localStorage.setItem "theme" "dark") ∧
    (∀ (p : Page) (ws : List Bool) (w : Bool) (s : ThemeState),
        run p (ws ++ [w]) = some s → s.currentTheme = "light" ∨ s.currentTheme = "dark") := by
  refine ⟨onClick_currentTheme, ?_, ?_, ?_⟩
  · intro p s h
    cases hd : p.storageDenied
    · rw [init_allowed p hd] at h
      cases Option.some.inj h
      exact initFrom_localStorage p _
    · rw [init_denied p hd] at h
      exact absurd h (by simp [Load.state?])
  · intro s w
    cases w
    · exact Or.inl rfl
    · right
      rw [onClick_localStorage_ok]
      by_cases h : s.currentTheme = "light" <;> simp [h]
  · intro p ws w s h
    obtain ⟨_, he, rfl⟩ := run_eq_some h
    have hi := initFrom_ready p _ he
    have hr := clicks_ready ws _ (hi.2.ready hi.1)
    rw [clicks_append]
    show (click _ w).currentTheme = "light" ∨ (click _ w).currentTheme = "dark"
    unfold click
    rw [if_pos hr.1, onClick_currentTheme]
    exact flip_range _

theorem toggle_range_witness :
    run (pageWith [("theme", "blue")]) ([] ++ [false])
      = some (lightState [("theme", "blue")]) ∧
    ((lightState [("theme", "blue")]).currentTheme = "light" ∨
     (lightState [("theme", "blue")]).currentTheme = "dark") :=
  ⟨by decide,
   toggle_range.2.2.2 (pageWith [("theme", "blue")]) [] false
     (lightState [("theme", "blue")]) (by decide)⟩

/-- C9, as stated, fails: on a page whose store holds `light`, a second toggle
in a row whose write fails leaves the in-memory theme, the attribute and the
icons all at `light`, equal to the persisted value. -/
theorem failed_write_can_agree :
    run (pageWith [("theme", "light")]) [false] = some (staleState [("theme", "light")]) ∧
    (onClick (staleState [("theme", "light")]) false).error = some JsError.quotaExceeded ∧
    (onClick (staleState [("theme", "light")]) false).state.currentTheme = "light" ∧
    (onClick (staleState [("theme", "light")]) false).state.dataTheme = some "light" ∧
    (onClick (staleState [("theme", "light")]) false).state.localStorage.getItem "theme"
      = some "light" ∧
    display? (onClick (staleState [("theme", "light")]) false).state.lightMode
      = some "inline" ∧
    display? (onClick (staleState [("theme", "light")]) false).state.darkMode
      = some "none" ∧
    ¬ ((onClick (staleState [("theme", "light")]) false).state.localStorage.getItem "theme"
        ≠ some (onClick (staleState [("theme", "light")]) false).state.currentTheme) := by
  decide

/-- C9 (amended): a toggle whose storage write fails is not atomic. The error is
not caught; the in-memory theme and the root `data-theme` attribute hold the new
theme; the store is unchanged; display-sync is not run, so both icons are as
before the click. When the persisted value was absent or equal to the in-memory
theme before the click, the in-memory theme now differs from the persisted
value. -/
theorem failed_write_not_atomic (s : ThemeState) :
    (onClick s false).error = some JsError.quotaExceeded ∧
    (onClick s false).state.currentTheme
      = (if s.currentTheme = "light" then "dark" else "light") ∧
    (onClick s false).state.dataTheme
      = some (if s.currentTheme = "light" then "dark" else "light") ∧
    (onClick s false).state.localStorage = s.localStorage ∧
    (onClick s false).state.lightMode = s.lightMode ∧
    (onClick s false).state.darkMode = s.darkMode ∧
    ((s.localStorage.getItem "theme" = none ∨
      s.localStorage.getItem "theme" = some s.currentTheme) →
      (onClick s false).state.localStorage.getItem "theme"
        ≠ some (onClick s false).state.currentTheme) := by
  refine ⟨rfl, rfl, rfl, rfl, rfl, rfl, ?_⟩
  intro h
  show s.localStorage.getItem "theme"
    ≠ some (if s.currentTheme = "light" then "dark" else "light")
  rcases h with h | h
  · rw [h]; simp
  · rw [h]
    by_cases ht : s.currentTheme = "light"
    · simp [ht]
    · simp only [if_neg ht]
      intro hc
      exact ht (Option.some.inj hc)

theorem failed_write_not_atomic_witness :
    ((lightState [("theme", "light")]).localStorage.getItem "theme" = none ∨
     (lightState [("theme", "light")]).localStorage.getItem "theme"
       = some (lightState [("theme", "light")]).currentTheme) ∧
    (onClick (lightState [("theme", "light")]) false).state.localStorage.getItem "theme"
      ≠ some (onClick (lightState [("theme", "light")]) false).state.currentTheme :=
  ⟨by decide,
   (failed_write_not_atomic (lightState [("theme", "light")])).2.2.2.2.2.2 (by decide)⟩

/-! ## Initialization: restore, default, missing elements -/

/-- C5, as stated, fails: the empty string stored under key `theme` is not
restored; the theme and the attribute are `light`. -/
theorem empty_string_not_restored :
    (pageWith [("theme", "")]).localStorage.getItem "theme" = some "" ∧
    (init (pageWith [("theme", "")])).state? = some (lightState [("theme", "")]) ∧
    (lightState [("theme", "")]).currentTheme = "light" ∧
    (lightState [("theme", "")]).dataTheme = some "light" ∧
    ¬ ((lightState [("theme", "")]).currentTheme = "" ∧
       (lightState [("theme", "")]).dataTheme = some "") := by
  decide

/-- C5 (amended): initialization restores every non-empty persisted value: for
every non-empty string `v` that line 8 reads under key `theme`, the in-memory
theme and the root `data-theme` attribute both equal `v`. The default `light` is
used when no value is stored under that key or the stored value is the empty
string. -/
theorem init_restores_persisted (p : Page) (hr : p.storageDenied = false) :
    (∀ v : String, p.localStorage.getItem "theme" = some v → v ≠ "" →
      ∃ s, (init p).state? = some s ∧ s.currentTheme = v ∧ s.dataTheme = some v) ∧
    ((p.localStorage.getItem "theme" = none ∨ p.localStorage.getItem "theme" = some "") →
      ∃ s, (init p).state? = some s ∧
        s.currentTheme = "light" ∧ s.dataTheme = some "light") := by
  rw [init_allowed p hr]
  constructor
  · intro v hv hne
    refine ⟨_, rfl, ?_, ?_⟩
    · rw [initFrom_currentTheme, hv]; simp [jsOr, hne]
    · rw [initFrom_dataTheme, hv]; simp [jsOr, hne]
  · intro h
    refine ⟨_, rfl, ?_, ?_⟩
    · rw [initFrom_currentTheme]
      rcases h with h | h <;> rw [h] <;> simp [jsOr]
    · rw [initFrom_dataTheme]
      rcases h with h | h <;> rw [h] <;> simp [jsOr]

theorem init_restores_persisted_witness :
    (pageWith [("theme", "blue")]).storageDenied = false ∧
    (pageWith [("theme", "blue")]).localStorage.getItem "theme" = some "blue" ∧
    "blue" ≠ "" ∧
    (∃ s, (init (pageWith [("theme", "blue")])).state? = some s ∧
      s.currentTheme = "blue" ∧ s.dataTheme = some "blue") ∧
    ((pageWith []).localStorage.getItem "theme" = none ∨
     (pageWith []).localStorage.getItem "theme" = some "") ∧
    (∃ s, (init (pageWith [])).state? = some s ∧
      s.currentTheme = "light" ∧ s.dataTheme = some "light") :=
  ⟨by decide, by decide, by decide,
   (init_restores_persisted (pageWith [("theme", "blue")]) (by decide)).1 "blue"
     (by decide) (by decide),
   by decide,
   (init_restores_persisted (pageWith []) (by decide)).2 (by decide)⟩

/-- C6: when line 8 finds no value persisted under key `theme` (and the control
and both icons are on the page), initialization completes, the in-memory theme
and the root `data-theme` attribute are `light`, the light icon is visible and
the dark icon is hidden. -/
theorem init_default (p : Page) (hr : p.storageDenied = false)
    (hs : p.localStorage.getItem "theme" = none)
    (hb : p.themeBtn.isSome) (hl : p.lightMode.isSome) (hd : p.darkMode.isSome) :
    (init p).error = none ∧
    ∃ s, (init p).state? = some s ∧
      s.currentTheme = "light" ∧
      s.dataTheme = some "light" ∧
      display? s.lightMode = some "inline" ∧
      display? s.darkMode = some "none" := by
  rw [init_allowed p hr, hs]
  have he := (initFrom_error_none_iff p (jsOr none "light")).mpr ⟨hb, hl, hd⟩
  have ht : (initFrom p (jsOr none "light")).state.currentTheme = "light" :=
    initFrom_currentTheme p _
  have hsync := (initFrom_ready p _ he).2
  unfold Synced at hsync
  rw [ht] at hsync
  refine ⟨he, _, rfl, ht, initFrom_dataTheme p _, ?_, ?_⟩
  · simpa using hsync.1
  · simpa using hsync.2

theorem init_default_witness :
    (pageWith []).storageDenied = false ∧
    (pageWith []).localStorage.getItem "theme" = none ∧
    (pageWith []).themeBtn.isSome ∧
    (pageWith []).lightMode.isSome ∧
    (pageWith []).darkMode.isSome ∧
    ((init (pageWith [])).error = none ∧
     ∃ s, (init (pageWith [])).state? = some s ∧
       s.currentTheme = "light" ∧
       s.dataTheme = some "light" ∧
       display? s.lightMode = some "inline" ∧
       display? s.darkMode = some "none") :=
  ⟨by decide, by decide, by decide, by decide, by decide,
   init_default (pageWith []) (by decide) (by decide) (by decide) (by decide) (by decide)⟩

/-- C7: when line 8 reads the string `dark` under key `theme` (and the control
and both icons are on the page), initialization completes, the in-memory theme
and the root `data-theme` attribute are `dark`, the dark icon is visible and the
light icon is hidden. -/
theorem init_restore_dark (p : Page) (hr : p.storageDenied = false)
    (hs : p.localStorage.getItem "theme" = some "dark")
    (hb : p.themeBtn.isSome) (hl : p.lightMode.isSome) (hd : p.darkMode.isSome) :
    (init p).error = none ∧
    ∃ s, (init p).state? = some s ∧
      s.currentTheme = "dark" ∧
      s.dataTheme = some "dark" ∧
      display? s.darkMode = some "inline" ∧
      display? s.lightMode = some "none" := by
  rw [init_allowed p hr, hs]
  have he := (initFrom_error_none_iff p (jsOr (some "dark") "light")).mpr ⟨hb, hl, hd⟩
  have ht : (initFrom p (jsOr (some "dark") "light")).state.currentTheme = "dark" :=
    initFrom_currentTheme p _
  have hsync := (initFrom_ready p _ he).2
  unfold Synced at hsync
  rw [ht] at hsync
  refine ⟨he, _, rfl, ht, initFrom_dataTheme p _, ?_, ?_⟩
  · simpa using hsync.2
  · simpa using hsync.1

theorem init_restore_dark_witness :
    (pageWith [("theme", "dark")]).storageDenied = false ∧
    (pageWith [("theme", "dark")]).localStorage.getItem "theme" = some "dark" ∧
    (pageWith [("theme", "dark")]).themeBtn.isSome ∧
    (pageWith [("theme", "dark")]).lightMode.isSome ∧
    (pageWith [("theme", "dark")]).darkMode.isSome ∧
    ((init (pageWith [("theme", "dark")])).error = none ∧
     ∃ s, (init (pageWith [("theme", "dark")])).state? = some s ∧
       s.currentTheme = "dark" ∧
       s.dataTheme = some "dark" ∧
       display? s.darkMode = some "inline" ∧
       display? s.lightMode = some "none") :=
  ⟨by decide, by decide, by decide, by decide, by decide,
   init_restore_dark (pageWith [("theme", "dark")])
     (by decide) (by decide) (by decide) (by decide) (by decide)⟩

/-- C8, as stated, fails: on a page that has the control and both icons but is
denied access to `localStorage`, initialization ends in an uncaught error (the
`SecurityError` of line 8) although none of the three elements is absent, and
no click handler is registered. -/
theorem init_fails_with_all_elements :
    deniedPage.themeBtn.isSome ∧ deniedPage.lightMode.isSome ∧
    deniedPage.darkMode.isSome ∧
    (init deniedPage).error = some JsError.securityError ∧
    (init deniedPage).state? = none ∧
    run deniedPage [] = none ∧
    ¬ ((init deniedPage).error ≠ none ↔
        (deniedPage.themeBtn = none ∨ deniedPage.lightMode = none ∨
          deniedPage.darkMode = none)) := by
  decide

/-- C8 (amended): initialization ends in an uncaught error exactly when the
storage read of line 8 is denied or at least one of the three looked-up elements
(control, light icon, dark icon) is absent; no click handler is registered then.
When the read is allowed and all three elements are present, initialization
completes without error and the click handler is registered. -/
theorem init_fails_iff_missing (p : Page) :
    ((init p).error ≠ none ↔
      (p.storageDenied = true ∨
        p.themeBtn = none ∨ p.lightMode = none ∨ p.darkMode = none)) ∧
    ((init p).error ≠ none →
      ((init p).error = some JsError.securityError ∨
        (init p).error = some JsError.typeError) ∧
      ∀ s, (init p).state? = some s → s.clickHandler = false) ∧
    (p.storageDenied = false → p.themeBtn.isSome → p.lightMode.isSome →
      p.darkMode.isSome →
      (init p).error = none ∧
      ∃ s, (init p).state? = some s ∧ s.clickHandler = true) := by
  cases hd : p.storageDenied
  · rw [init_allowed p hd]
    simp only [Load.error, Load.state?]
    refine ⟨?_, ?_, ?_⟩
    · rw [Ne, initFrom_error_none_iff]
      cases p.themeBtn <;> cases p.lightMode <;> cases p.darkMode <;> simp
    · intro h
      have he := initFrom_error p _ h
      refine ⟨Or.inr he.1, ?_⟩
      intro s hs
      cases Option.some.inj hs
      exact he.2
    · intro _ hb hl hdm
      have he := (initFrom_error_none_iff p
        (jsOr (p.localStorage.getItem "theme") "light")).mpr ⟨hb, hl, hdm⟩
      exact ⟨he, _, rfl, (initFrom_ready p _ he).1⟩
  · rw [init_denied p hd]
    simp [Load.error, Load.state?]

theorem init_fails_iff_missing_witness :
    ((pageWith []).storageDenied = false ∧ (pageWith []).themeBtn.isSome ∧
      (pageWith []).lightMode.isSome ∧ (pageWith []).darkMode.isSome) ∧
    ((init (pageWith [])).error = none ∧
      ∃ s, (init (pageWith [])).state? = some s ∧ s.clickHandler = true) ∧
    (init { pageWith [] with darkMode := none }).error ≠ none ∧
    ((init { pageWith [] with darkMode := none }).error = some JsError.securityError ∨
      (init { pageWith [] with darkMode := none }).error = some JsError.typeError) :=
  ⟨by decide,
   (init_fails_iff_missing (pageWith [])).2.2 (by decide) (by decide) (by decide)
     (by decide),
   by decide,
   ((init_fails_iff_missing { pageWith [] with darkMode := none }).2.1 (by decide)).1⟩

/-! ## Invariants of the loaded page -/

/-- C3: in every state reached after initialization completes and after any
sequence of clicks (whatever the outcome of each write), exactly one of the two
icons is visible (display `inline`) and the other is hidden (display `none`):
never both visible, never both hidden. -/
theorem icon_exclusivity (p : Page) (ws : List Bool) (s : ThemeState)
    (h : run p ws = some s) :
    ((display? s.lightMode = some "inline" ∧ display? s.darkMode = some "none") ∨
     (display? s.lightMode = some "none" ∧ display? s.darkMode = some "inline")) ∧
    ¬ (display? s.lightMode = some "inline" ∧ display? s.darkMode = some "inline") ∧
    ¬ (display? s.lightMode = some "none" ∧ display? s.darkMode = some "none") := by
  have hr := (run_ready h).2
  refine ⟨hr, ?_, ?_⟩
  · rintro ⟨h1, h2⟩
    rcases hr with hr | hr
    · rw [h2] at hr; exact absurd hr.2 (by decide)
    · rw [h1] at hr; exact absurd hr.1 (by decide)
  · rintro ⟨h1, h2⟩
    rcases hr with hr | hr
    · rw [h1] at hr; exact absurd hr.1 (by decide)
    · rw [h2] at hr; exact absurd hr.2 (by decide)

theorem icon_exclusivity_witness :
    run (pageWith [("theme", "light")]) [false] = some (staleState [("theme", "light")]) ∧
    ((display? (staleState [("theme", "light")]).lightMode = some "inline" ∧
      display? (staleState [("theme", "light")]).darkMode = some "none") ∨
     (display? (staleState [("theme", "light")]).lightMode = some "none" ∧
      display? (staleState [("theme", "light")]).darkMode = some "inline")) :=
  ⟨by decide,
   (icon_exclusivity (pageWith [("theme", "light")]) [false]
     (staleState [("theme", "light")]) (by decide)).1⟩

/-- C2, as stated, fails: with nothing persisted, initialization sets the root
attribute to `light` and writes nothing, so the attribute differs from the
(absent) persisted value and the light icon is visible although the persisted
value is not `light`. -/
theorem default_theme_not_persisted :
    run (pageWith []) [] = some (lightState []) ∧
    (lightState []).dataTheme = some "light" ∧
    (lightState []).localStorage.getItem "theme" = none ∧
    display? (lightState []).lightMode = some "inline" ∧
    ¬ ((lightState []).dataTheme = (lightState []).localStorage.getItem "theme" ∧
       (display? (lightState []).darkMode = some "inline" ↔
          (lightState []).localStorage.getItem "theme" = some "dark") ∧
       (display? (lightState []).lightMode = some "inline" ↔
          (lightState []).localStorage.getItem "theme" = some "light")) := by
  decide

/-- What a state needs for attribute, persisted value and icons to agree. -/
theorem consistent_of (s : ThemeState) (hd : s.dataTheme = some s.currentTheme)
    (hg : s.localStorage.getItem "theme" = some s.currentTheme) (hsync : Synced s)
    (ht : s.currentTheme = "light" ∨ s.currentTheme = "dark") :
    s.dataTheme = s.localStorage.getItem "theme" ∧
    (display? s.darkMode = some "inline" ↔ s.localStorage.getItem "theme" = some "dark") ∧
    (display? s.lightMode = some "inline" ↔
      s.localStorage.getItem "theme" = some "light") := by
  unfold Synced at hsync
  rw [hd, hg, hsync.1, hsync.2]
  rcases ht with ht | ht <;> rw [ht] <;> decide

/-- C2 (amended): in every state reached by initialization followed by clicks of
which the last one had a successful storage write, or by initialization alone
when the store initially holds `light` or `dark` under key `theme`, the root
`data-theme` attribute equals the persisted value, the dark icon is the visible
one exactly when that value is `dark` and the light icon exactly when it is
`light`. -/
theorem consistent_after_update (p : Page) (ws : List Bool) (s : ThemeState)
    (h : run p ws = some s)
    (hc : ws.getLast? = some true ∨
      (ws = [] ∧ (p.localStorage.getItem "theme" = some "light" ∨
                  p.localStorage.getItem "theme" = some "dark"))) :
    s.dataTheme = s.localStorage.getItem "theme" ∧
    (display? s.darkMode = some "inline" ↔ s.localStorage.getItem "theme" = some "dark") ∧
    (display? s.lightMode = some "inline" ↔
      s.localStorage.getItem "theme" = some "light") := by
  obtain ⟨_, he, rfl⟩ := run_eq_some h
  have hi := initFrom_ready p _ he
  generalize hθ : initFrom p (jsOr (p.localStorage.getItem "theme") "light") = o at he hi ⊢
  rcases hc with hc | ⟨rfl, hc⟩
  · obtain ⟨ys, rfl⟩ := List.getLast?_eq_some_iff.mp hc
    have hr := clicks_ready ys _ (hi.2.ready hi.1)
    have hs : clicks o.state (ys ++ [true])
        = (onClick (clicks o.state ys) true).state := by
      rw [clicks_append]
      show click _ true = _
      unfold click
      rw [if_pos hr.1]
    rw [hs]
    apply consistent_of
    · rw [onClick_dataTheme, onClick_currentTheme]
    · rw [onClick_getItem_ok, onClick_currentTheme]
    · exact (onClick_ok_synced _ hr).2
    · rw [onClick_currentTheme]; exact flip_range _
  · show o.state.dataTheme = _ ∧ _
    subst hθ
    have hj : jsOr (p.localStorage.getItem "theme") "light"
        = "light" ∨ jsOr (p.localStorage.getItem "theme") "light" = "dark" := by
      rcases hc with hc | hc <;> rw [hc] <;> decide
    have hg : p.localStorage.getItem "theme"
        = some (jsOr (p.localStorage.getItem "theme") "light") := by
      rcases hc with hc | hc <;> rw [hc] <;> decide
    refine consistent_of _ ?_ ?_ hi.2 ?_
    · rw [initFrom_dataTheme, initFrom_currentTheme]
    · rw [initFrom_localStorage, initFrom_currentTheme]; exact hg
    · rw [initFrom_currentTheme]; exact hj

theorem consistent_after_update_witness :
    run (pageWith []) [false, true] = some (lightState [("theme", "light")]) ∧
    [false, true].getLast? = some true ∧
    (lightState [("theme", "light")]).dataTheme
      = (lightState [("theme", "light")]).localStorage.getItem "theme" :=
  ⟨by decide, by decide,
   (consistent_after_update (pageWith []) [false, true] (lightState [("theme", "light")])
     (by decide) (Or.inl (by decide))).1⟩

end Theme
